import Mathlib

/-!
Shallow embedding of the Express + Sequelize tutorial application.

The embedding covers:
- the in-memory user store and route handlers of routes/user.js,
- the error middleware and middleware registration order of index.js,
- the model definitions and the dbInit startup step of the committed
  models file (src/unnamed/part_000).

Machine details that JavaScript leaves implicit are made explicit:
the Math.random draw is passed as a rational parameter r with 0 ≤ r < 1,
and Math.round is round half up, which is Mathlib round on the rationals.
-/

namespace ExpressApp

/-- Task record as consumed by the users.pug view: a bare title.  The
in-memory store of routes/user.js only ever holds empty task arrays. -/
structure Task where
  title : String
deriving DecidableEq, Repr

/-- User record as stored in the in-memory list of routes/user.js:
an integer id, a name, and a list of tasks. -/
structure User where
  id : ℤ
  name : String
  tasks : List Task
deriving DecidableEq, Repr

/-- Initial in-memory store, routes/user.js lines 4 to 8. -/
def users0 : List User := [⟨1, "Antonio", []⟩]

/-- Identifier generator of routes/user.js line 17,
Math.round(Math.random() * 10), with the random draw r made explicit. -/
def genId (r : ℚ) : ℤ := round (r * 10)

/-- The create-user operation, routes/user.js lines 14 to 22: push a record
with a freshly generated id, the given name, and an empty task list. -/
def createUser (s : List User) (name : String) (r : ℚ) : List User :=
  s ++ [⟨genId r, name, []⟩]

/-- HTTP responses produced by the handlers: res.send with a status and a
body, res.redirect with a status and a Location value, or res.render with
a view name and the user data passed to it. -/
inductive Response where
  | send : Nat → String → Response
  | redirect : Nat → String → Response
  | render : Nat → String → List User → Response
deriving DecidableEq, Repr

/-- HTTP status of a response. -/
def Response.statusOf : Response → Nat
  | .send st _ => st
  | .redirect st _ => st
  | .render st _ _ => st

/-- Body of a res.send response; for the other shapes, the Location value
respectively the view name. -/
def Response.bodyOf : Response → String
  | .send _ b => b
  | .redirect _ loc => loc
  | .render _ v _ => v

/-- An error object: the handlers and middleware only ever inspect its
message field. -/
structure JsError where
  message : String
deriving DecidableEq, Repr

/-- Outcome of running the routed handler: a normal response, a failure
handed to the failure continuation next(e) (a synchronous throw is routed
the same way by Express), or no route matched. -/
inductive HandlerOutcome where
  | ok : Response → HandlerOutcome
  | fail : JsError → HandlerOutcome
  | noMatch : HandlerOutcome
deriving DecidableEq, Repr

/-- Whether an outcome is a failure handed to the error path. -/
def HandlerOutcome.isFail : HandlerOutcome → Bool
  | .fail _ => true
  | _ => false

/-- Error middleware of index.js lines 33 to 36: respond with status 500
and the fixed prefix followed by the message of the error. -/
def onError (err : JsError) : Response :=
  Response.send 500 ("Something went wrong: " ++ err.message)

/-- How the app turns a handler outcome into a final response: a normal
response passes through, a failure is given to the error middleware, and
an unmatched request falls through to the default handling (out of scope
here, hence none). -/
def finalize : HandlerOutcome → Option Response
  | .ok resp => some resp
  | .fail e => some (onError e)
  | .noMatch => none

/-- The users router of routes/user.js, mounted at /users.  The argument
segs is the request path below the mount point, split at slashes; name is
the name field of the decoded request body; r is the random draw used by
the create-user handler. -/
def userRouter (s : List User) (method : String) (segs : List String)
    (name : String) (r : ℚ) : List User × HandlerOutcome :=
  match method, segs with
  | "GET", [] => (s, .ok (.render 200 "users.pug" s))
  | "POST", [] => (createUser s name r, .ok (.redirect 302 "users"))
  | "POST", [_, "delete"] => (s, .ok (.send 200 "Delete user"))
  | "POST", [_, "tasks"] => (s, .ok (.send 200 "Create task"))
  | "POST", [_, "tasks", _, "delete"] => (s, .ok (.send 200 "Delete task"))
  | _, _ => (s, .noMatch)

/-- Total number of stored tasks across all users. -/
def taskCount (s : List User) : Nat :=
  (s.map (fun u => u.tasks.length)).sum

/-- RFC 3986 merge of a relative reference against a base path: keep the
base up to and including its last slash, then append the reference. -/
def mergeRel (base rel : List Char) : List Char :=
  (base.reverse.dropWhile (fun c => c ≠ '/')).reverse ++ rel

/-- Resolution of a Location value against the request path, as a client
performs it on receiving a redirect: an absolute reference stands alone,
a relative one is merged onto the base path. -/
def resolveLocation (basePath rel : String) : String :=
  match rel.toList with
  | [] => basePath
  | '/' :: _ => rel
  | _ => ⟨mergeRel basePath.toList rel.toList⟩

/-- Effective target of a redirect response, resolved against the request
path; none for a non-redirect response. -/
def effectiveRedirect (requestPath : String) : Response → Option String
  | .redirect _ loc => some (resolveLocation requestPath loc)
  | _ => none

/-- Store states reachable from the initial in-memory list by any sequence
of create-user operations, each with its random draw in [0, 1). -/
inductive Reachable : List User → Prop where
  | init : Reachable users0
  | create (s : List User) (name : String) (r : ℚ) (h0 : 0 ≤ r) (h1 : r < 1) :
      Reachable s → Reachable (createUser s name r)

/-- All identifiers in the store are pairwise distinct. -/
def UniqueIds (s : List User) : Prop :=
  s.Pairwise (fun a b => a.id ≠ b.id)

/-- Names of the models defined in the committed models file
(src/unnamed/part_000): only the user model is defined there. -/
def definedModels : List String := ["user"]

/-- Associations declared in the committed models file: none.  The README
version of the same file declares User.hasMany(Task); the committed file
does not. -/
def modelAssociations : List (String × String) := []

/-- Effect of sequelize.sync() on the set of tables: create a table for
each defined model if it is absent. -/
def syncTables (defined : List String) (tables : List String) : List String :=
  defined.foldl (fun ts m => if m ∈ ts then ts else ts ++ [m]) tables

/-- The sync step as configured by the committed models file. -/
def dbSync (tables : List String) : List String :=
  syncTables definedModels tables

/-- Observable result of one dbInit run: the log lines it writes and the
error, if any, escaping the async function as a rejected promise. -/
structure DbInitTrace where
  logs : List String
  escaped : Option String
deriving DecidableEq, Repr

/-- The dbInit of the committed models file (src/unnamed/part_000 lines 16
to 24): authenticate inside a try/catch whose catch only logs, then sync
awaited outside the try, so a sync failure escapes the function. -/
def dbInit (authErr : Option String) (syncErr : Option String) : DbInitTrace :=
  let logs :=
    match authErr with
    | none => ["Connection has been established successfully."]
    | some e => ["Unable to dbInit to the database: " ++ e]
  ⟨logs, syncErr⟩

/-- Events of the synchronous startup sequence of index.js. -/
inductive StartupEvent where
  | dbInitCalled
  | middlewareRegistered
  | routerMounted
  | errorHandlerRegistered
  | listening
deriving DecidableEq, Repr

/-- The startup sequence of index.js: dbInit() is invoked without await at
line 6, and registration and listen proceed unconditionally afterwards,
whatever the dbInit outcomes are. -/
def startup (authErr syncErr : Option String) : List StartupEvent × DbInitTrace :=
  ([.dbInitCalled, .middlewareRegistered, .routerMounted,
    .errorHandlerRegistered, .listening],
   dbInit authErr syncErr)

/-- Registered pipeline stages of index.js lines 8 to 19, in registration
order.  The GET / route of line 14 sits between the logging middleware and
the mounted users router. -/
inductive Stage where
  | staticAssets
  | jsonBody
  | urlencodedBody
  | logRequestInfo
  | logRequestTime
  | rootRedirect
  | usersRouter
  | errorStage
deriving DecidableEq, Repr

/-- The registration list of index.js. -/
def pipeline : List Stage :=
  [.staticAssets, .jsonBody, .urlencodedBody, .logRequestInfo, .logRequestTime,
   .rootRedirect, .usersRouter, .errorStage]

/-- Whether a registered stage runs for a normal, non-error request with
the given method and path: plain middleware always runs; the GET / route
runs only on GET /; the mounted router runs when the path is /users or
below it; the error stage runs only on the error path. -/
def appliesTo (method path : String) : Stage → Bool
  | .rootRedirect => method == "GET" && path == "/"
  | .usersRouter => path == "/users" || path.startsWith "/users/"
  | .errorStage => false
  | _ => true

/-- Identifier of the most recently stored user, if any. -/
def assignedId (s : List User) : Option ℤ :=
  s.getLast?.map (fun u => u.id)

/-- For a random draw in [0, 1), the generated identifier lies between 0
and 10. -/
theorem genId_mem_range (r : ℚ) (h0 : 0 ≤ r) (h1 : r < 1) :
    0 ≤ genId r ∧ genId r ≤ 10 := by
  unfold genId
  rw [round_eq]
  constructor
  · refine Int.le_floor.mpr ?_
    push_cast
    nlinarith
  · have hlt : (r * 10 + 1 / 2 : ℚ) < 11 := by nlinarith
    have h := Int.floor_lt.mpr (by exact_mod_cast hlt : (r * 10 + 1 / 2 : ℚ) < (11 : ℤ))
    omega

/-- C3: every error object reaching the error-handling stage, whether
raised synchronously or passed via the failure continuation (both arrive
as a fail outcome), yields a response with HTTP status 500 whose body is
the literal prefix followed by the message of the error. -/
theorem C3_onError_shape (e : JsError) :
    finalize (HandlerOutcome.fail e) = some (onError e) ∧
    (onError e).statusOf = 500 ∧
    (onError e).bodyOf = "Something went wrong: " ++ e.message :=
  ⟨rfl, rfl, rfl⟩

/-- C7: the delete-user and delete-task routes are stubs: for every id and
taskId segment, they respond with status 200 and placeholder text, and the
store after the request equals the store before it. -/
theorem C7_delete_stubs (s : List User) (idSeg taskSeg name : String) (r : ℚ) :
    userRouter s "POST" [idSeg, "delete"] name r =
      (s, HandlerOutcome.ok (Response.send 200 "Delete user")) ∧
    userRouter s "POST" [idSeg, "tasks", taskSeg, "delete"] name r =
      (s, HandlerOutcome.ok (Response.send 200 "Delete task")) :=
  ⟨rfl, rfl⟩

/-- C1, counterexample: with userId 999, which resolves to no stored user,
the create-task route does not fail with NotFoundError or any error at
all: it responds 200 with placeholder text and leaves the store as it was. -/
theorem C1_counterexample :
    users0.all (fun u => u.id != 999) = true ∧
    userRouter users0 "POST" ["999", "tasks"] "" 0 =
      (users0, HandlerOutcome.ok (Response.send 200 "Create task")) ∧
    (userRouter users0 "POST" ["999", "tasks"] "" 0).2.isFail = false :=
  ⟨by decide, rfl, rfl⟩

/-- C1 (amended): the create-task route, invoked with an id segment that
resolves to no existing user, responds with status 200 and the placeholder
text Create task, and the task count of the store is unchanged. -/
theorem C1_create_task_stub (s : List User) (idSeg name : String) (r : ℚ)
    (h : s.all (fun u => toString u.id != idSeg) = true) :
    userRouter s "POST" [idSeg, "tasks"] name r =
      (s, HandlerOutcome.ok (Response.send 200 "Create task")) ∧
    taskCount (userRouter s "POST" [idSeg, "tasks"] name r).1 = taskCount s :=
  ⟨rfl, rfl⟩

/-- Witness for C1: the amended statement instantiated at the initial
store and the unresolvable id segment 999. -/
theorem C1_create_task_stub_witness :
    users0.all (fun u => toString u.id != "999") = true ∧
    (userRouter users0 "POST" ["999", "tasks"] "Bob" 0 =
      (users0, HandlerOutcome.ok (Response.send 200 "Create task")) ∧
    taskCount (userRouter users0 "POST" ["999", "tasks"] "Bob" 0).1 = taskCount users0) :=
  ⟨by decide, C1_create_task_stub users0 "999" "Bob" 0 (by decide)⟩

/-- C4 (code bug): the committed models file defines only the user model,
so the sync step establishes only the users table: on an empty schema no
task table appears and no association is declared, against the documented
intent of tables for both User and Task with their foreign key.  The sync
step is idempotent, as claimed. -/
theorem C4_sync_creates_only_user_table :
    dbSync [] = ["user"] ∧
    ¬ ("task" ∈ dbSync []) ∧
    modelAssociations = [] ∧
    ∀ ts : List String, dbSync (dbSync ts) = dbSync ts := by
  refine ⟨rfl, by decide, rfl, ?_⟩
  intro ts
  by_cases h : "user" ∈ ts <;> simp [dbSync, syncTables, definedModels, h]

/-- C8 (code bug): a failure of the connectivity check is caught and
logged, but a failure of the sync step escapes dbInit unlogged, because
sync is awaited outside the try/catch; the startup sequence of index.js
still runs to completion since dbInit is invoked without await. -/
theorem C8_sync_failure_escapes :
    dbInit (some "boom") none =
      DbInitTrace.mk ["Unable to dbInit to the database: boom"] none ∧
    dbInit none (some "disk full") =
      DbInitTrace.mk ["Connection has been established successfully."] (some "disk full") ∧
    (dbInit none (some "disk full")).escaped ≠ none ∧
    (startup none (some "disk full")).1.contains StartupEvent.listening = true := by
  refine ⟨rfl, rfl, by decide, by decide⟩

/-- C2, counterexample: one create-user operation from the initial store,
with random draw 1/10, assigns identifier round(1) = 1, which is already
the identifier of the initial user: the reached state holds two distinct
user records with the same identifier. -/
theorem C2_counterexample :
    Reachable (createUser users0 "Bob" (1 / 10)) ∧
    ¬ UniqueIds (createUser users0 "Bob" (1 / 10)) := by
  constructor
  · exact Reachable.create users0 "Bob" (1 / 10) (by norm_num) (by norm_num) Reachable.init
  · have hid : genId ((10 : ℚ))⁻¹ = 1 := by
      unfold genId
      rw [round_eq]
      norm_num
    simp [UniqueIds, createUser, users0, List.pairwise_cons, hid]

/-- C2 (amended): identifiers are not kept distinct by the create-user
operation; what does hold in every reachable state is that each stored
identifier is an integer between 0 and 10 inclusive. -/
theorem C2_ids_in_range (s : List User) (h : Reachable s) :
    ∀ u ∈ s, 0 ≤ u.id ∧ u.id ≤ 10 := by
  induction h with
  | init =>
      intro u hu
      simp [users0] at hu
      subst hu
      decide
  | create s name r h0 h1 hs ih =>
      intro u hu
      unfold createUser at hu
      rcases List.mem_append.mp hu with hmem | hmem
      · exact ih u hmem
      · simp at hmem
        subst hmem
        exact genId_mem_range r h0 h1

/-- Witness for C2: the amended statement instantiated at the initial
store and its only user. -/
theorem C2_ids_in_range_witness :
    Reachable users0 ∧
    (0 ≤ (User.mk 1 "Antonio" []).id ∧ (User.mk 1 "Antonio" []).id ≤ 10) :=
  ⟨Reachable.init,
   C2_ids_in_range users0 Reachable.init (User.mk 1 "Antonio" []) (by decide)⟩

/-- C5: for every store state, name and random draw, the POST / handler of
the users router appends one user carrying that name with an empty task
list and responds with a 302 redirect whose Location, resolved against the
request path /users, is /users. -/
theorem C5_post_users (s : List User) (name : String) (r : ℚ) :
    (userRouter s "POST" [] name r).2 =
      HandlerOutcome.ok (Response.redirect 302 "users") ∧
    effectiveRedirect "/users" (Response.redirect 302 "users") = some "/users" ∧
    ∃ u : User, (userRouter s "POST" [] name r).1 = s ++ [u] ∧
      u.name = name ∧ u.tasks = [] :=
  ⟨rfl, rfl, ⟨⟨genId r, name, []⟩, rfl, rfl, rfl⟩⟩

/-- C6: creating a user named Alice from the initial store and then
listing users renders the stored list, in which exactly one entry is named
Alice, and that entry has an empty task list. -/
theorem C6_alice (r : ℚ) :
    (userRouter (userRouter users0 "POST" [] "Alice" r).1 "GET" [] "" 0).2 =
      HandlerOutcome.ok
        (Response.render 200 "users.pug" (userRouter users0 "POST" [] "Alice" r).1) ∧
    ((userRouter users0 "POST" [] "Alice" r).1.filter
        (fun u => u.name == "Alice")) = [⟨genId r, "Alice", []⟩] ∧
    ((userRouter users0 "POST" [] "Alice" r).1.filter
        (fun u => u.name == "Alice")).length = 1 :=
  ⟨rfl, rfl, rfl⟩

/-- C9: for a normal request reaching the mounted users router, the stages
that run, in registration order, are static assets, JSON body decoding,
URL-encoded body decoding, request-info logging, timestamp logging, then
the users router; the error stage is registered after the router. -/
theorem C9_stage_order (method path : String)
    (h1 : (path == "/") = false)
    (h2 : (path == "/users" || path.startsWith "/users/") = true) :
    pipeline.filter (appliesTo method path) =
      [Stage.staticAssets, Stage.jsonBody, Stage.urlencodedBody,
       Stage.logRequestInfo, Stage.logRequestTime, Stage.usersRouter] ∧
    pipeline.indexOf Stage.usersRouter < pipeline.indexOf Stage.errorStage := by
  constructor
  · simp [pipeline, appliesTo, List.filter, h1, h2]
  · decide

/-- Witness for C9: the stage order for a POST request to /users. -/
theorem C9_stage_order_witness :
    (("/users" == "/") = false) ∧
    (("/users" == "/users" || "/users".startsWith "/users/") = true) ∧
    (pipeline.filter (appliesTo "POST" "/users") =
      [Stage.staticAssets, Stage.jsonBody, Stage.urlencodedBody,
       Stage.logRequestInfo, Stage.logRequestTime, Stage.usersRouter] ∧
    pipeline.indexOf Stage.usersRouter < pipeline.indexOf Stage.errorStage) :=
  ⟨by decide, by decide, C9_stage_order "POST" "/users" (by decide) (by decide)⟩

/-- C10: for every random draw in [0, 1), the identifier assigned by the
create-user operation lies in the 11-element interval from 0 to 10, and it
does not depend on the store contents: two create-user operations with the
same draw assign the same identifier whatever the stores and names are. -/
theorem C10_random_id_range (r : ℚ) (h0 : 0 ≤ r) (h1 : r < 1) :
    genId r ∈ Finset.Icc (0 : ℤ) 10 ∧
    (Finset.Icc (0 : ℤ) 10).card = 11 ∧
    ∀ (s₁ s₂ : List User) (n₁ n₂ : String),
      assignedId (createUser s₁ n₁ r) = assignedId (createUser s₂ n₂ r) := by
  obtain ⟨ha, hb⟩ := genId_mem_range r h0 h1
  refine ⟨Finset.mem_Icc.mpr ⟨ha, hb⟩, by decide, ?_⟩
  intro s₁ s₂ n₁ n₂
  simp [assignedId, createUser]

/-- Witness for C10: the statement instantiated at the draw 1/2 and two
concrete stores. -/
theorem C10_random_id_range_witness :
    ((0 : ℚ) ≤ 1 / 2 ∧ (1 / 2 : ℚ) < 1) ∧
    genId (1 / 2) ∈ Finset.Icc (0 : ℤ) 10 ∧
    (Finset.Icc (0 : ℤ) 10).card = 11 ∧
    assignedId (createUser users0 "Bob" (1 / 2)) =
      assignedId (createUser [] "Carol" (1 / 2)) :=
  ⟨⟨by norm_num, by norm_num⟩,
   (C10_random_id_range (1 / 2) (by norm_num) (by norm_num)).1,
   (C10_random_id_range (1 / 2) (by norm_num) (by norm_num)).2.1,
   (C10_random_id_range (1 / 2) (by norm_num) (by norm_num)).2.2 users0 [] "Bob" "Carol"⟩

end ExpressApp
